import Mathlib

/-!
Shallow embedding of the IPE-competencies updater
(repository pushyamig/IPE-competencies-updater).

Source files embedded:
  * src/ipe_process_orchestrator/assignment_flow.py  (class IPEAssignmentFlow)
  * src/ipe_process_orchestrator/orchestrator.py     (class IPECompetenciesOrchestrator)
  * src/tests/api_handler_test.py                    (tests of APIHandler)

The repository modules api_handler/api_calls.py (class APIHandler),
ipe_utils/df_utils.py and constants.py are not present under src/; where a
claim depends on them the corresponding definition is modelled from the
spec and marked as such in its doc comment.  The class IPERubricDataMapping
used by orchestrator.py line 82 is neither imported nor defined anywhere in
src/, so that call raises NameError; the embedding reflects this.
-/

namespace IPE

/-! ## Python-style string helpers -/

/-- Whitespace characters recognised by the model of Python str.strip. -/
def isPyWs (c : Char) : Bool :=
  c = ' ' || c = '\t' || c = '\n' || c = '\r'

/-- Model of Python str.strip(): drop leading and trailing whitespace. -/
def pyStrip (s : String) : String :=
  ⟨(((s.data.dropWhile isPyWs).reverse.dropWhile isPyWs).reverse)⟩

/-! ## JSON syntactic validity

Modelled from the spec: the API client classifies a response by "confirming
the body parses as valid structured data" (json.loads succeeding).  The
checker below is a recursive-descent validator for JSON syntax. -/

/-- Skip JSON whitespace. -/
def skipWs : List Char → List Char
  | [] => []
  | c :: cs => if isPyWs c then skipWs cs else c :: cs

/-- Consume the rest of a JSON string literal (the opening quote already
consumed); a backslash escapes the following character. -/
def parseStringRest : List Char → Option (List Char)
  | [] => none
  | c :: cs =>
    if c = '"' then some cs
    else if c = '\\' then
      match cs with
      | [] => none
      | _ :: cs2 => parseStringRest cs2
    else parseStringRest cs

/-- Consume a run of decimal digits, returning it with the rest. -/
def spanDigits : List Char → List Char × List Char
  | [] => ([], [])
  | c :: cs =>
    if c.isDigit then
      let (ds, rest) := spanDigits cs
      (c :: ds, rest)
    else ([], c :: cs)

/-- Consume a JSON number (integer part already known to start here). -/
def parseNumber (cs : List Char) : Option (List Char) :=
  let cs1 := match cs with
    | c :: rest => if c = '-' then rest else cs
    | [] => cs
  let (ds, cs2) := spanDigits cs1
  if ds.isEmpty then none
  else
    let cs3 := match cs2 with
      | c :: rest =>
        if c = '.' then
          let (fs, r2) := spanDigits rest
          if fs.isEmpty then [] else r2
        else cs2
      | [] => cs2
    match cs3 with
    | c :: rest =>
      if c = 'e' || c = 'E' then
        let rest2 := match rest with
          | d :: r3 => if d = '+' || d = '-' then r3 else rest
          | [] => rest
        let (es, r4) := spanDigits rest2
        if es.isEmpty then none else some r4
      else some cs3
    | [] => some cs3

mutual

/-- Consume one JSON value, returning the remaining input. -/
def parseJsonValue : Nat → List Char → Option (List Char)
  | 0, _ => none
  | fuel + 1, cs =>
    match skipWs cs with
    | [] => none
    | c :: rest =>
      if c = '"' then parseStringRest rest
      else if c = '{' then parseObjectBody fuel rest
      else if c = '[' then parseArrayBody fuel rest
      else if c = 't' then
        match rest with
        | 'r' :: 'u' :: 'e' :: r2 => some r2
        | _ => none
      else if c = 'f' then
        match rest with
        | 'a' :: 'l' :: 's' :: 'e' :: r2 => some r2
        | _ => none
      else if c = 'n' then
        match rest with
        | 'u' :: 'l' :: 'l' :: r2 => some r2
        | _ => none
      else if c = '-' || c.isDigit then parseNumber (c :: rest)
      else none

/-- Consume the body of a JSON object after the opening brace. -/
def parseObjectBody : Nat → List Char → Option (List Char)
  | 0, _ => none
  | fuel + 1, cs =>
    match skipWs cs with
    | [] => none
    | c :: rest =>
      if c = '}' then some rest
      else if c = '"' then
        match parseStringRest rest with
        | none => none
        | some afterKey =>
          match skipWs afterKey with
          | ':' :: afterColon =>
            match parseJsonValue fuel afterColon with
            | none => none
            | some afterVal =>
              match skipWs afterVal with
              | ',' :: afterComma => parseObjectBody fuel afterComma
              | '}' :: r2 => some r2
              | _ => none
          | _ => none
      else none

/-- Consume the body of a JSON array after the opening bracket. -/
def parseArrayBody : Nat → List Char → Option (List Char)
  | 0, _ => none
  | fuel + 1, cs =>
    match skipWs cs with
    | ']' :: rest => some rest
    | _ =>
      match parseJsonValue fuel cs with
      | none => none
      | some afterVal =>
        match skipWs afterVal with
        | ',' :: afterComma => parseArrayBody fuel afterComma
        | ']' :: r2 => some r2
        | _ => none

end

/-- Modelled from the spec: whether json.loads would accept the string
(syntactically valid JSON document with nothing but whitespace after it). -/
def json_loads_ok (s : String) : Bool :=
  match parseJsonValue (s.length + 1) s.data with
  | some rest => (skipWs rest).isEmpty
  | none => false

/-! ## API client (api_handler/api_calls.py, not under src/) -/

/-- An HTTP response as the client sees it: status code and body text. -/
structure Response where
  status_code : Nat
  text : String
deriving DecidableEq, Repr

/-- Modelled from the spec: APIHandler.check_if_response_successful
(api_handler/api_calls.py is not under src/; its tests are in
src/tests/api_handler_test.py).  A response is classified successful
exactly when its body parses as valid JSON; the status code is not
consulted ("Failure is reserved for unparseable bodies"). -/
def check_if_response_successful (response : Response) : Bool :=
  json_loads_ok response.text

/-- One retry loop: `net i` is the response the network produces for the
i-th attempt; returns the first successful response together with the
number of attempts actually made. -/
def retryLoop (net : Nat → Response) : Nat → Nat → Option Response × Nat
  | 0, made => (none, made)
  | budget + 1, made =>
    let r := net made
    if check_if_response_successful r then (some r, made + 1)
    else retryLoop net budget (made + 1)

/-- Modelled from the spec: APIHandler.api_call_with_retries
(api_handler/api_calls.py is not under src/).  Retries up to a fixed
attempt ceiling, classifying each attempt with
check_if_response_successful, and returns None (absence) rather than
raising when every attempt is unsuccessful.  The second component counts
the attempts made. -/
def api_call_with_retries (maxAttempts : Nat) (net : Nat → Response) :
    Option Response × Nat :=
  retryLoop net maxAttempts 0

/-! ## Constants (constants.py, values fixed by the spec and docstrings) -/

/-- The fixed assignment-group name. -/
def ASSIGNMENT_GROUP_NAME : String := "IPE Competencies"

/-- The fixed assignment name. -/
def ASSIGNMENT_NAME : String := "IPE Competencies Attained"

/-- Modelled from the spec: the course-id column label (constants.py is not
under src/); only its identity matters to the embedding. -/
def COL_COURSE_ID : String := "Course ID"

/-! ## Remote LMS state

Modelled from the spec (section 6): the remote service holds, per course,
assignment groups with nested assignments.  `nextId` models the service
allocating fresh ids for created entities. -/

/-- A remote assignment. -/
structure Assignment where
  name : String
  id : Int
deriving DecidableEq, Repr

/-- A remote assignment group with its nested assignments. -/
structure AssignmentGroup where
  name : String
  id : Int
  assignments : List Assignment
deriving DecidableEq, Repr

/-- The remote service state for one course. -/
structure RemoteState where
  groups : List AssignmentGroup
  nextId : Int
deriving DecidableEq, Repr

/-- Effect on the remote state of DELETE /courses/{id}/assignments/{aid}. -/
def removeAssignmentById (aid : Int) (s : RemoteState) : RemoteState :=
  { s with groups :=
      s.groups.map (fun g =>
        { g with assignments := g.assignments.filter (fun a => !(a.id == aid)) }) }

/-- Effect of POST /courses/{id}/assignment_groups: a fresh group is
appended; returns the new state and the created id (position is a display
hint only and is not part of the remote model state). -/
def addGroup (name : String) (s : RemoteState) : RemoteState × Int :=
  ({ groups := s.groups ++ [{ name := name, id := s.nextId, assignments := [] }],
     nextId := s.nextId + 1 }, s.nextId)

/-! ## Payloads of the creation calls (assignment_flow.py) -/

/-- The payload of the assignment-creation POST (assignment_flow.py,
`_create_assignment`). -/
structure AssignmentPayload where
  name : String
  description : String
  points_possible : Int
  submission_types : String
  assignment_group_id : Int
  notify_of_update : String
  published : String
  omit_from_final_grade : String
  grading_type : String
deriving DecidableEq, Repr

/-- The payload of the rubric-association POST (assignment_flow.py,
`_assign_ipe_rubrics`). -/
structure RubricPayload where
  association_type : String
  association_id : Int
  use_for_grading : String
  purpose : String
  rubric_id : Int
deriving DecidableEq, Repr

/-- The assignment payload built by `_create_assignment` for a group. -/
def assignment_payload_for (assignment_group_id : Int) : AssignmentPayload :=
  { name := ASSIGNMENT_NAME,
    description := "This assignment is used for applying IPE competencies and does not require any student submissions",
    points_possible := 0,
    submission_types := "none",
    assignment_group_id := assignment_group_id,
    notify_of_update := "false",
    published := "true",
    omit_from_final_grade := "true",
    grading_type := "not_graded" }

/-- Effect of POST /courses/{id}/assignments: the assignment is appended to
the group named by the payload; returns the new state and the created id. -/
def addAssignmentToGroup (p : AssignmentPayload) (s : RemoteState) : RemoteState × Int :=
  ({ groups := s.groups.map
       (fun g => if g.id == p.assignment_group_id then
           { g with assignments := g.assignments ++ [{ name := p.name, id := s.nextId }] }
         else g),
     nextId := s.nextId + 1 }, s.nextId)

/-- One outbound API call of the workflow, as recorded in the call trace. -/
inductive ApiCall where
  | lookupGroups (course_id : Int)
  | deleteAssignment (course_id : Int) (assignment_id : Int)
  | createGroup (course_id : Int) (name : String) (position : Int)
  | createAssignment (course_id : Int) (payload : AssignmentPayload)
  | createRubricAssociation (course_id : Int) (payload : RubricPayload)
deriving DecidableEq, Repr

/-- Whether a recorded call is an assignment deletion. -/
def isDeleteCall : ApiCall → Bool
  | ApiCall.deleteAssignment _ _ => true
  | _ => false

/-- Per-endpoint availability of the API client: each field tells whether
`api_call_with_retries` yields a usable response (true) or absence/None
(false) for the corresponding call site of assignment_flow.py. -/
structure ApiFlags where
  lookupOk : Bool
  deleteOk : Bool
  createGroupOk : Bool
  createAssignmentOk : Bool
  rubricOk : Bool
deriving DecidableEq, Repr

/-- All endpoints respond. -/
def allOk : ApiFlags :=
  { lookupOk := true, deleteOk := true, createGroupOk := true,
    createAssignmentOk := true, rubricOk := true }

/-- The `self` of IPEAssignmentFlow: course id and rubric id. -/
structure Flow where
  course_id : Int
  rubric_id : Int
deriving DecidableEq, Repr

/-! ## Error messages (assignment_flow.py, the err_msg strings) -/

/-- err_msg of `_look_up_ipe_assignment`. -/
def lookup_err_msg (course_id : Int) : String :=
  "Error looking up assignment group \x27" ++ ASSIGNMENT_GROUP_NAME ++
    "\x27 with assignment name \x27" ++ ASSIGNMENT_NAME ++
    "\x27 for course " ++ toString course_id ++ " failed"

/-- err_msg of `_delete_assignment`. -/
def delete_err_msg (assignment_id course_id : Int) : String :=
  "Error deleting assignment " ++ toString assignment_id ++
    " for course " ++ toString course_id

/-- err_msg of `_create_assignment_group`. -/
def create_group_err_msg (course_id : Int) : String :=
  "Error creating assignment group " ++ ASSIGNMENT_GROUP_NAME ++
    " for course " ++ toString course_id

/-- err_msg of `_create_assignment`. -/
def create_assignment_err_msg (course_id : Int) : String :=
  "Error creating assignment for course " ++ toString course_id ++ " failed"

/-- err_msg of `_assign_ipe_rubrics`. -/
def rubric_err_msg (rubric_id assignment_id course_id : Int) : String :=
  "Error assigning rubrics " ++ toString rubric_id ++ " for assignment " ++
    toString assignment_id ++ " for course failed " ++ toString course_id

/-! ## The assignment workflow (assignment_flow.py, class IPEAssignmentFlow)

Each Python method becomes a function threading the remote state and the
trace of outbound calls; a raised exception becomes `Except.error` with the
raised message. -/

/-- `_delete_assignment`: DELETE the assignment, raising when the client
returns absence (response_none_check). -/
def delete_assignment (flags : ApiFlags) (f : Flow) (assignment_id : Int)
    (s : RemoteState) (tr : List ApiCall) :
    Except String (RemoteState × List ApiCall) :=
  let tr1 := tr ++ [ApiCall.deleteAssignment f.course_id assignment_id]
  if flags.deleteOk then
    Except.ok (removeAssignmentById assignment_id s, tr1)
  else
    Except.error (delete_err_msg assignment_id f.course_id)

/-- The inner loop of `_look_up_ipe_assignment`: within one name-matching
group, each nested assignment whose stripped name equals ASSIGNMENT_NAME is
deleted immediately. -/
def delete_matching_assignments (flags : ApiFlags) (f : Flow) :
    List Assignment → RemoteState → List ApiCall →
    Except String (RemoteState × List ApiCall)
  | [], s, tr => Except.ok (s, tr)
  | a :: rest, s, tr =>
    if pyStrip a.name = ASSIGNMENT_NAME then
      match delete_assignment flags f a.id s tr with
      | Except.error e => Except.error e
      | Except.ok (s2, tr2) => delete_matching_assignments flags f rest s2 tr2
    else
      delete_matching_assignments flags f rest s tr

/-- The outer loop of `_look_up_ipe_assignment`: scan the fetched listing,
collecting the id of every group whose stripped name equals
ASSIGNMENT_GROUP_NAME (after deleting its matching nested assignments). -/
def scan_assignment_groups (flags : ApiFlags) (f : Flow) :
    List AssignmentGroup → List Int → RemoteState → List ApiCall →
    Except String (List Int × RemoteState × List ApiCall)
  | [], acc, s, tr => Except.ok (acc, s, tr)
  | ag :: rest, acc, s, tr =>
    if pyStrip ag.name = ASSIGNMENT_GROUP_NAME then
      match delete_matching_assignments flags f ag.assignments s tr with
      | Except.error e => Except.error e
      | Except.ok (s2, tr2) => scan_assignment_groups flags f rest (acc ++ [ag.id]) s2 tr2
    else
      scan_assignment_groups flags f rest acc s tr

/-- The value `ag_list if not ag_list else ag_list[0]` returned by
`_look_up_ipe_assignment`: the empty Python list, or the first id. -/
inductive LookupResult where
  | emptyList : LookupResult
  | firstId : Int → LookupResult
deriving DecidableEq, Repr

/-- Python truthiness test `not x` on the lookup result: the empty list is
falsy, and so is the integer 0. -/
def pyFalsy : LookupResult → Bool
  | LookupResult.emptyList => true
  | LookupResult.firstId i => i == 0

/-- The int Python reads out of a truthy lookup result. -/
def lookupResultId : LookupResult → Int
  | LookupResult.emptyList => 0
  | LookupResult.firstId i => i

/-- Shape of the return value `ag_list if not ag_list else ag_list[0]`. -/
def lookupResultOf : List Int → LookupResult
  | [] => LookupResult.emptyList
  | i :: _ => LookupResult.firstId i

/-- `_look_up_ipe_assignment`: GET the assignment-group listing (a snapshot
of the current remote groups), raise on absence, then run the scan. -/
def look_up_ipe_assignment (flags : ApiFlags) (f : Flow)
    (s : RemoteState) (tr : List ApiCall) :
    Except String (LookupResult × RemoteState × List ApiCall) :=
  let tr1 := tr ++ [ApiCall.lookupGroups f.course_id]
  if flags.lookupOk then
    match scan_assignment_groups flags f s.groups [] s tr1 with
    | Except.error e => Except.error e
    | Except.ok (agList, s2, tr2) => Except.ok (lookupResultOf agList, s2, tr2)
  else
    Except.error (lookup_err_msg f.course_id)

/-- `_create_assignment_group`: POST a group named ASSIGNMENT_GROUP_NAME at
position 2000, raise on absence, return the created id. -/
def create_assignment_group (flags : ApiFlags) (f : Flow)
    (s : RemoteState) (tr : List ApiCall) :
    Except String (Int × RemoteState × List ApiCall) :=
  let tr1 := tr ++ [ApiCall.createGroup f.course_id ASSIGNMENT_GROUP_NAME 2000]
  if flags.createGroupOk then
    let (s2, gid) := addGroup ASSIGNMENT_GROUP_NAME s
    Except.ok (gid, s2, tr1)
  else
    Except.error (create_group_err_msg f.course_id)

/-- `_create_assignment`: POST the fixed assignment payload into the
resolved group, raise on absence, return the created id. -/
def create_assignment (flags : ApiFlags) (f : Flow) (assignment_group_id : Int)
    (s : RemoteState) (tr : List ApiCall) :
    Except String (Int × RemoteState × List ApiCall) :=
  let p := assignment_payload_for assignment_group_id
  let tr1 := tr ++ [ApiCall.createAssignment f.course_id p]
  if flags.createAssignmentOk then
    let (s2, aid) := addAssignmentToGroup p s
    Except.ok (aid, s2, tr1)
  else
    Except.error (create_assignment_err_msg f.course_id)

/-- The rubric-association payload built by `_assign_ipe_rubrics`. -/
def rubric_payload_for (f : Flow) (assignment_id : Int) : RubricPayload :=
  { association_type := "Assignment",
    association_id := assignment_id,
    use_for_grading := "false",
    purpose := "grading",
    rubric_id := f.rubric_id }

/-- `_assign_ipe_rubrics`: POST the rubric association for the created
assignment, raising on absence. -/
def assign_ipe_rubrics (flags : ApiFlags) (f : Flow) (assignment_id : Int)
    (s : RemoteState) (tr : List ApiCall) :
    Except String (RemoteState × List ApiCall) :=
  let tr1 := tr ++ [ApiCall.createRubricAssociation f.course_id (rubric_payload_for f assignment_id)]
  if flags.rubricOk then
    Except.ok (s, tr1)
  else
    Except.error (rubric_err_msg f.rubric_id assignment_id f.course_id)

/-- `start_assignment_flow`: look up, create the group when the lookup
result is falsy (`if not assignment_group_id`), create the assignment,
attach the rubric; the try/except re-raises, so errors propagate. -/
def start_assignment_flow (flags : ApiFlags) (f : Flow) (s : RemoteState) :
    Except String (Int × RemoteState × List ApiCall) :=
  match look_up_ipe_assignment flags f s [] with
  | Except.error e => Except.error e
  | Except.ok (lr, s1, tr1) =>
    let resolved : Except String (Int × RemoteState × List ApiCall) :=
      if pyFalsy lr then create_assignment_group flags f s1 tr1
      else Except.ok (lookupResultId lr, s1, tr1)
    match resolved with
    | Except.error e => Except.error e
    | Except.ok (gid, s2, tr2) =>
      match create_assignment flags f gid s2 tr2 with
      | Except.error e => Except.error e
      | Except.ok (aid, s3, tr3) =>
        match assign_ipe_rubrics flags f aid s3 tr3 with
        | Except.error e => Except.error e
        | Except.ok (s4, tr4) => Except.ok (aid, s4, tr4)

/-! ## Tabular input (pandas DataFrame, as the orchestrator uses it) -/

/-- A dataframe: column labels and rows of cells. -/
structure DataFrame where
  columns : List String
  rows : List (List String)
deriving DecidableEq, Repr

/-- The cell of a row under a named column. -/
def cellAt (columns : List String) (row : List String) (col : String) : String :=
  match columns.indexOf? col with
  | some i => row.getD i ""
  | none => ""

/-- Modelled from the spec: df_columns_strip (ipe_utils/df_utils.py, not
under src/) trims leading and trailing whitespace from each column label. -/
def df_columns_strip (columns : List String) : List String :=
  columns.map pyStrip

/-- A syntactically valid numeric course id: nonempty, all digits. -/
def isNumericCourseId (cell : String) : Bool :=
  !cell.isEmpty && cell.data.all (fun c => c.isDigit)

/-- Modelled from the spec: df_remove_non_course_id (ipe_utils/df_utils.py,
not under src/) keeps only the rows whose course-id cell is a number,
dropping Shell, shell(23333), empty and similar placeholder rows. -/
def df_remove_non_course_id (df : DataFrame) : DataFrame :=
  { columns := df.columns,
    rows := df.rows.filter (fun r => isNumericCourseId (cellAt df.columns r COL_COURSE_ID)) }

/-! ## Orchestrator (orchestrator.py, class IPECompetenciesOrchestrator) -/

/-- The rubric definition fetched once before the loop. -/
structure RubricData where
  data : String
deriving DecidableEq, Repr

/-- Outcome of running a piece of the Python process: a value, a
sys.exit(code), or an uncaught exception. -/
inductive ProcResult (α : Type) where
  | ok : α → ProcResult α
  | exited : Nat → ProcResult α
  | raised : String → ProcResult α
deriving DecidableEq, Repr

/-- Observable orchestrator events: the rubric fetch, entry into the
per-row lambda of the batch loop, and logger.error lines. -/
inductive OEvent where
  | rubricFetch
  | courseIter (idx : Nat)
  | logError (msg : String)
deriving DecidableEq, Repr

/-- The orchestrator's fields (`self`); props reduced to the two ids the
embedded methods read. -/
structure Orchestrator where
  props_rubric_account_id : Int
  props_rubric_id : Int
  orginal_df : DataFrame
  filter_df_course_ids : DataFrame
deriving DecidableEq, Repr

/-- `_clean_up_ipe_dataframe`: strip the original dataframe's column
labels in place, store the filtered rows in filter_df_course_ids; any
exception from the dataframe layer (injected as `cleanExc`) is logged and
the process exits with status 1. -/
def clean_up_ipe_dataframe (cleanExc : Option String) (o : Orchestrator) :
    ProcResult Orchestrator × List OEvent :=
  match cleanExc with
  | some e =>
    (ProcResult.exited 1, [OEvent.logError ("Error in clean_up_ipe_dataframe: " ++ e)])
  | none =>
    let stripped : DataFrame :=
      { columns := df_columns_strip o.orginal_df.columns, rows := o.orginal_df.rows }
    (ProcResult.ok
      { o with orginal_df := stripped,
               filter_df_course_ids := df_remove_non_course_id stripped }, [])

/-- The message of the NameError raised inside `getting_rubrics`:
orchestrator.py uses the name IPERubricDataMapping at line 82 but never
imports or defines it. -/
def name_error_msg : String :=
  "name \x27IPERubricDataMapping\x27 is not defined"

/-- `getting_rubrics`: the method body reads
IPERubricDataMapping(...).fetch_rubric_api(), but orchestrator.py never
imports or defines IPERubricDataMapping, so evaluating the name raises
NameError before any fetch can start; the except clause logs it and the
process exits with status 1.  No rubric-fetch event ever occurs. -/
def getting_rubrics : ProcResult RubricData × List OEvent :=
  (ProcResult.exited 1,
    [OEvent.logError ("Error in getting_rubrics: " ++ name_error_msg)])

/-- `_create_delete_assignment`: runs the per-course assignment flow; the
try/except re-raises, so the outcome passes through unchanged. -/
def create_delete_assignment (flowOutcome : Except String Int) : Except String Int :=
  match flowOutcome with
  | Except.ok assignment_id => Except.ok assignment_id
  | Except.error e => Except.error e

/-- `start_competencies_assigning_process` as declared (one course
parameter): any exception from the flow is caught and logged, and nothing
is re-raised. -/
def start_competencies_assigning_process (flowOutcome : Except String Int) :
    List OEvent :=
  match create_delete_assignment flowOutcome with
  | Except.ok _ => []
  | Except.error e => [OEvent.logError e]

/-- TypeError raised by the batch loop's call (see `course_loop`). -/
def type_error_msg : String :=
  "TypeError: start_competencies_assigning_process() takes 2 positional arguments but 3 were given"

/-- The `.apply` loop of `start_composing_process`.  The source lambda
passes two arguments (course, rubrics_data) to
start_competencies_assigning_process, which is declared with a single
course parameter, so in Python the first invocation raises TypeError
before the method body runs; nothing catches it, so the loop aborts.  The
per-course flow outcomes are therefore never consulted. -/
def course_loop (flowOutcomes : Nat → Except String Int) (nRows : Nat) :
    ProcResult Unit × List OEvent :=
  match nRows with
  | 0 => (ProcResult.ok (), [])
  | _ + 1 =>
    let _ := flowOutcomes
    (ProcResult.raised type_error_msg, [OEvent.courseIter 0])

/-- `start_composing_process`: clean the input, call getting_rubrics, then
run the batch loop over the filtered course rows.  Because getting_rubrics
always exits (missing import, see its doc comment), the loop branch is
dead code in every run; it is kept because the source contains it. -/
def start_composing_process (cleanExc : Option String)
    (flowOutcomes : Nat → Except String Int) (o : Orchestrator) :
    ProcResult Unit × List OEvent :=
  match clean_up_ipe_dataframe cleanExc o with
  | (ProcResult.exited n, ev) => (ProcResult.exited n, ev)
  | (ProcResult.raised e, ev) => (ProcResult.raised e, ev)
  | (ProcResult.ok o2, ev1) =>
    match getting_rubrics with
    | (ProcResult.exited n, ev2) => (ProcResult.exited n, ev1 ++ ev2)
    | (ProcResult.raised e, ev2) => (ProcResult.raised e, ev1 ++ ev2)
    | (ProcResult.ok _, ev2) =>
      let (r, ev3) := course_loop flowOutcomes o2.filter_df_course_ids.rows.length
      (r, ev1 ++ ev2 ++ ev3)

/-! ## Derived descriptions of the lookup scan, used to state the claims -/

/-- The nested assignments whose stripped name equals ASSIGNMENT_NAME. -/
def matchingAssignments (as : List Assignment) : List Assignment :=
  as.filter (fun a => pyStrip a.name == ASSIGNMENT_NAME)

/-- The groups whose stripped name equals ASSIGNMENT_GROUP_NAME. -/
def matchingGroups (gs : List AssignmentGroup) : List AssignmentGroup :=
  gs.filter (fun g => pyStrip g.name == ASSIGNMENT_GROUP_NAME)

/-- The ids the scan accumulates in ag_list: ids of all name-matching
groups, in listing order. -/
def matchingGroupIds (gs : List AssignmentGroup) : List Int :=
  (matchingGroups gs).map (fun g => g.id)

/-- The ids of every matching nested assignment of every matching group:
exactly the assignments the scan deletes, in deletion order. -/
def allMatchIds (gs : List AssignmentGroup) : List Int :=
  (matchingGroups gs).flatMap (fun g => (matchingAssignments g.assignments).map (fun a => a.id))

/-- The DELETE calls the scan issues, in order. -/
def delete_calls_for (f : Flow) (gs : List AssignmentGroup) : List ApiCall :=
  (matchingGroups gs).flatMap
    (fun g => (matchingAssignments g.assignments).map
      (fun a => ApiCall.deleteAssignment f.course_id a.id))

/-- Sequential deletion of a list of assignment ids. -/
def remIds (ids : List Int) (s : RemoteState) : RemoteState :=
  ids.foldl (fun s i => removeAssignmentById i s) s

/-- The assignments surviving the deletion of a set of ids. -/
def assignmentsAfterDeletes (ids : List Int) (as : List Assignment) : List Assignment :=
  as.filter (fun a => !(ids.contains a.id))

/-- Closed form of `remIds`: each group keeps the surviving assignments. -/
def remIdsSpec (ids : List Int) (s : RemoteState) : RemoteState :=
  { groups := s.groups.map
      (fun g => { g with assignments := assignmentsAfterDeletes ids g.assignments }),
    nextId := s.nextId }

/-- How many assignments of a list carry the configured name (stripped). -/
def matchingAssignmentCount (as : List Assignment) : Nat :=
  (matchingAssignments as).length

/-- How many assignments named ASSIGNMENT_NAME live in the group(s) with
the given id. -/
def matchCountIn (s : RemoteState) (gid : Int) : Nat :=
  ((s.groups.filter (fun g => g.id == gid)).map
    (fun g => matchingAssignmentCount g.assignments)).sum

/-! ## Concrete inputs used by the witnesses -/

/-- A stale copy of the IPE assignment, as left behind by a course copy. -/
def demoAssignment : Assignment :=
  { name := "IPE Competencies Attained", id := 5 }

/-- An existing IPE Competencies group holding the stale assignment. -/
def demoGroup : AssignmentGroup :=
  { name := "IPE Competencies", id := 10, assignments := [demoAssignment] }

/-- An unrelated group. -/
def demoOtherGroup : AssignmentGroup :=
  { name := "Quizzes", id := 11, assignments := [] }

/-- A course that already has the IPE group and a stale assignment. -/
def demoState : RemoteState :=
  { groups := [demoOtherGroup, demoGroup], nextId := 100 }

/-- A course with no name-matching group. -/
def plainState : RemoteState :=
  { groups := [{ name := "Quizzes", id := 3, assignments := [{ name := "Quiz 1", id := 4 }] }],
    nextId := 20 }

/-- A course whose only matching group carries id 0. -/
def zeroIdState : RemoteState :=
  { groups := [{ name := "IPE Competencies", id := 0, assignments := [] }], nextId := 40 }

/-- The flow instance for course 111 with rubric 7. -/
def demoFlow : Flow :=
  { course_id := 111, rubric_id := 7 }

/-- Flags with only the lookup endpoint unavailable. -/
def flagsNoLookup : ApiFlags :=
  { lookupOk := false, deleteOk := true, createGroupOk := true,
    createAssignmentOk := true, rubricOk := true }

/-- Flags with only the delete endpoint unavailable. -/
def flagsNoDelete : ApiFlags :=
  { lookupOk := true, deleteOk := false, createGroupOk := true,
    createAssignmentOk := true, rubricOk := true }

/-- Flags with only the group-creation endpoint unavailable. -/
def flagsNoCreateGroup : ApiFlags :=
  { lookupOk := true, deleteOk := true, createGroupOk := false,
    createAssignmentOk := true, rubricOk := true }

/-- Flags with only the assignment-creation endpoint unavailable. -/
def flagsNoCreateAssignment : ApiFlags :=
  { lookupOk := true, deleteOk := true, createGroupOk := true,
    createAssignmentOk := false, rubricOk := true }

/-- Flags with only the rubric-association endpoint unavailable. -/
def flagsNoRubric : ApiFlags :=
  { lookupOk := true, deleteOk := true, createGroupOk := true,
    createAssignmentOk := true, rubricOk := false }

/-- The spreadsheet of the spec's cleaning example, with an untrimmed
column label. -/
def demoDf : DataFrame :=
  { columns := [" Course ID "],
    rows := [["123"], ["Shell"], [""], ["shell(45)"], ["67"]] }

/-- An orchestrator over the demo spreadsheet. -/
def demoOrch : Orchestrator :=
  { props_rubric_account_id := 1, props_rubric_id := 7,
    orginal_df := demoDf, filter_df_course_ids := { columns := [], rows := [] } }

/-- Body of the 200 test response of api_handler_test.py. -/
def valid_success_body : String := "\x7b\"success\": true\x7d"

/-- Body of the 400 test response of api_handler_test.py. -/
def valid_failure_body : String := "\x7b\"success\": false\x7d"

/-- The invalid-JSON body of api_handler_test.py (Python literal True and
a missing closing brace). -/
def invalid_json_body : String := "\x7b\"success\": True"

/-- A network on which every attempt returns an unparseable body. -/
def badNet : Nat → Response :=
  fun _ => { status_code := 200, text := invalid_json_body }

/-! # Lemmas -/

/-- The configured assignment name carries no surrounding whitespace. -/
theorem pyStrip_assignment_name : pyStrip ASSIGNMENT_NAME = ASSIGNMENT_NAME := by decide

/-- The configured group name carries no surrounding whitespace. -/
theorem pyStrip_group_name : pyStrip ASSIGNMENT_GROUP_NAME = ASSIGNMENT_GROUP_NAME := by decide

theorem remIds_nil (s : RemoteState) : remIds [] s = s := rfl

theorem remIds_cons (i : Int) (ids : List Int) (s : RemoteState) :
    remIds (i :: ids) s = remIds ids (removeAssignmentById i s) := rfl

theorem remIds_append (xs ys : List Int) (s : RemoteState) :
    remIds (xs ++ ys) s = remIds ys (remIds xs s) := by
  simp [remIds]

theorem nextId_remIds (ids : List Int) (s : RemoteState) :
    (remIds ids s).nextId = s.nextId := by
  induction ids generalizing s with
  | nil => rfl
  | cons i ids ih => rw [remIds_cons, ih]; rfl

/-- Closed form of the inner deletion loop when deletes respond. -/
theorem delete_matching_ok (flags : ApiFlags) (hdel : flags.deleteOk = true)
    (f : Flow) (as : List Assignment) (s : RemoteState) (tr : List ApiCall) :
    delete_matching_assignments flags f as s tr =
      Except.ok (remIds ((matchingAssignments as).map (fun a => a.id)) s,
        tr ++ (matchingAssignments as).map (fun a => ApiCall.deleteAssignment f.course_id a.id)) := by
  induction as generalizing s tr with
  | nil => simp [delete_matching_assignments, matchingAssignments, remIds_nil]
  | cons a rest ih =>
    by_cases h : pyStrip a.name = ASSIGNMENT_NAME
    · simp [delete_matching_assignments, h, delete_assignment, hdel, matchingAssignments,
        List.filter_cons, ih, remIds_cons]
    · simp [delete_matching_assignments, h, matchingAssignments, List.filter_cons, ih]

/-- Closed form of the group scan when deletes respond: it accumulates the
matching group ids, deletes all matching nested assignments, and records
exactly those DELETE calls. -/
theorem scan_groups_ok (flags : ApiFlags) (hdel : flags.deleteOk = true)
    (f : Flow) (ags : List AssignmentGroup) (acc : List Int)
    (s : RemoteState) (tr : List ApiCall) :
    scan_assignment_groups flags f ags acc s tr =
      Except.ok (acc ++ matchingGroupIds ags, remIds (allMatchIds ags) s,
        tr ++ delete_calls_for f ags) := by
  induction ags generalizing acc s tr with
  | nil => simp [scan_assignment_groups, matchingGroupIds, matchingGroups, allMatchIds,
      delete_calls_for, remIds_nil]
  | cons g rest ih =>
    by_cases h : pyStrip g.name = ASSIGNMENT_GROUP_NAME
    · rw [scan_assignment_groups, if_pos h, delete_matching_ok flags hdel]
      simp [ih, matchingGroupIds, matchingGroups, allMatchIds, delete_calls_for,
        List.filter_cons, h, remIds_append]
    · rw [scan_assignment_groups, if_neg h]
      simp [ih, matchingGroupIds, matchingGroups, allMatchIds, delete_calls_for,
        List.filter_cons, h]

/-- Closed form of `_look_up_ipe_assignment` when lookup and deletes
respond. -/
theorem look_up_ok (flags : ApiFlags) (hlk : flags.lookupOk = true)
    (hdel : flags.deleteOk = true) (f : Flow) (s : RemoteState) :
    look_up_ipe_assignment flags f s [] =
      Except.ok (lookupResultOf (matchingGroupIds s.groups),
        remIds (allMatchIds s.groups) s,
        ApiCall.lookupGroups f.course_id :: delete_calls_for f s.groups) := by
  rw [look_up_ipe_assignment]
  simp [hlk, scan_groups_ok flags hdel]

/-- Closed form of the whole flow when the lookup result is falsy (no
matching group, or a first matching id of 0) and every endpoint responds:
the group is created and the assignment lands in it. -/
theorem flow_ok_falsy (flags : ApiFlags) (hlk : flags.lookupOk = true)
    (hdel : flags.deleteOk = true) (hcg : flags.createGroupOk = true)
    (hca : flags.createAssignmentOk = true) (hrb : flags.rubricOk = true)
    (f : Flow) (s : RemoteState)
    (hfal : pyFalsy (lookupResultOf (matchingGroupIds s.groups)) = true) :
    start_assignment_flow flags f s =
      Except.ok (s.nextId + 1,
        (addAssignmentToGroup (assignment_payload_for s.nextId)
          (addGroup ASSIGNMENT_GROUP_NAME (remIds (allMatchIds s.groups) s)).1).1,
        ApiCall.lookupGroups f.course_id ::
          (delete_calls_for f s.groups ++
            [ApiCall.createGroup f.course_id ASSIGNMENT_GROUP_NAME 2000,
             ApiCall.createAssignment f.course_id (assignment_payload_for s.nextId),
             ApiCall.createRubricAssociation f.course_id
               (rubric_payload_for f (s.nextId + 1))])) := by
  rw [start_assignment_flow, look_up_ok flags hlk hdel]
  simp [hfal, create_assignment_group, hcg, addGroup, create_assignment, hca,
    assign_ipe_rubrics, hrb, nextId_remIds, addAssignmentToGroup]

/-- Closed form of the whole flow when the lookup finds a first matching
group id that is nonzero and every endpoint responds: the assignment lands
in the found group, with no group creation. -/
theorem flow_ok_found (flags : ApiFlags) (hlk : flags.lookupOk = true)
    (hdel : flags.deleteOk = true) (hca : flags.createAssignmentOk = true)
    (hrb : flags.rubricOk = true) (f : Flow) (s : RemoteState)
    (i : Int) (rest : List Int)
    (hL : matchingGroupIds s.groups = i :: rest) (hi : (i == 0) = false) :
    start_assignment_flow flags f s =
      Except.ok (s.nextId,
        (addAssignmentToGroup (assignment_payload_for i)
          (remIds (allMatchIds s.groups) s)).1,
        ApiCall.lookupGroups f.course_id ::
          (delete_calls_for f s.groups ++
            [ApiCall.createAssignment f.course_id (assignment_payload_for i),
             ApiCall.createRubricAssociation f.course_id
               (rubric_payload_for f s.nextId)])) := by
  rw [start_assignment_flow, look_up_ok flags hlk hdel, hL]
  simp [lookupResultOf, pyFalsy, hi, lookupResultId, create_assignment, hca,
    assign_ipe_rubrics, hrb, nextId_remIds, addAssignmentToGroup]

/-- Absent lookup response: the flow raises the lookup error. -/
theorem flow_err_lookup (flags : ApiFlags) (hlk : flags.lookupOk = false)
    (f : Flow) (s : RemoteState) :
    start_assignment_flow flags f s = Except.error (lookup_err_msg f.course_id) := by
  simp [start_assignment_flow, look_up_ipe_assignment, hlk]

/-- Deletion loop on a list with no matching assignment: nothing happens. -/
theorem delete_matching_noMatch (flags : ApiFlags) (f : Flow)
    (as : List Assignment) (h : ∀ a ∈ as, ¬ pyStrip a.name = ASSIGNMENT_NAME)
    (s : RemoteState) (tr : List ApiCall) :
    delete_matching_assignments flags f as s tr = Except.ok (s, tr) := by
  induction as with
  | nil => rfl
  | cons a rest ih =>
    rw [delete_matching_assignments, if_neg (h a (List.mem_cons_self a rest))]
    exact ih (fun b hb => h b (List.mem_cons_of_mem a hb))

/-- Deletion loop on a list containing a matching assignment while the
delete endpoint is absent: it raises the delete error for some id. -/
theorem delete_matching_fail (flags : ApiFlags) (hdel : flags.deleteOk = false)
    (f : Flow) (as : List Assignment) :
    ∀ (s : RemoteState) (tr : List ApiCall),
      (∃ a ∈ as, pyStrip a.name = ASSIGNMENT_NAME) →
      ∃ aid, delete_matching_assignments flags f as s tr =
        Except.error (delete_err_msg aid f.course_id) := by
  induction as with
  | nil => intro s tr h; simp at h
  | cons a rest ih =>
    intro s tr h
    by_cases ha : pyStrip a.name = ASSIGNMENT_NAME
    · exact ⟨a.id, by simp [delete_matching_assignments, ha, delete_assignment, hdel]⟩
    · have h2 : ∃ b ∈ rest, pyStrip b.name = ASSIGNMENT_NAME := by
        rcases h with ⟨b, hb, hb2⟩
        rcases List.mem_cons.mp hb with rfl | hb3
        · exact absurd hb2 ha
        · exact ⟨b, hb3, hb2⟩
      rcases ih s tr h2 with ⟨aid, he⟩
      exact ⟨aid, by simp [delete_matching_assignments, ha, he]⟩

/-- Group scan over a listing containing a matching group with a matching
nested assignment, while the delete endpoint is absent: it raises the
delete error for some id. -/
theorem scan_fail (flags : ApiFlags) (hdel : flags.deleteOk = false) (f : Flow)
    (ags : List AssignmentGroup) :
    ∀ (acc : List Int) (s : RemoteState) (tr : List ApiCall),
      (∃ g ∈ ags, pyStrip g.name = ASSIGNMENT_GROUP_NAME ∧
        ∃ a ∈ g.assignments, pyStrip a.name = ASSIGNMENT_NAME) →
      ∃ aid, scan_assignment_groups flags f ags acc s tr =
        Except.error (delete_err_msg aid f.course_id) := by
  induction ags with
  | nil => intro _ _ _ h; simp at h
  | cons g rest ih =>
    intro acc s tr h
    by_cases hg : pyStrip g.name = ASSIGNMENT_GROUP_NAME
    · by_cases hex : ∃ a ∈ g.assignments, pyStrip a.name = ASSIGNMENT_NAME
      · rcases delete_matching_fail flags hdel f g.assignments s tr hex with ⟨aid, he⟩
        exact ⟨aid, by simp [scan_assignment_groups, hg, he]⟩
      · have hnone : ∀ a ∈ g.assignments, ¬ pyStrip a.name = ASSIGNMENT_NAME := by
          simpa using hex
        have h2 : ∃ g2 ∈ rest, pyStrip g2.name = ASSIGNMENT_GROUP_NAME ∧
            ∃ a ∈ g2.assignments, pyStrip a.name = ASSIGNMENT_NAME := by
          rcases h with ⟨g2, hg2, hp⟩
          rcases List.mem_cons.mp hg2 with rfl | hg3
          · exact absurd hp.2 hex
          · exact ⟨g2, hg3, hp⟩
        rcases ih (acc ++ [g.id]) s tr h2 with ⟨aid, he⟩
        exact ⟨aid, by
          simp [scan_assignment_groups, hg,
            delete_matching_noMatch flags f g.assignments hnone, he]⟩
    · have h2 : ∃ g2 ∈ rest, pyStrip g2.name = ASSIGNMENT_GROUP_NAME ∧
          ∃ a ∈ g2.assignments, pyStrip a.name = ASSIGNMENT_NAME := by
        rcases h with ⟨g2, hg2, hp⟩
        rcases List.mem_cons.mp hg2 with rfl | hg3
        · exact absurd hp.1 hg
        · exact ⟨g2, hg3, hp⟩
      rcases ih acc s tr h2 with ⟨aid, he⟩
      exact ⟨aid, by simp [scan_assignment_groups, hg, he]⟩

/-- Absent delete response while a stale copy exists: the flow raises the
delete error. -/
theorem flow_err_delete (flags : ApiFlags) (hlk : flags.lookupOk = true)
    (hdel : flags.deleteOk = false) (f : Flow) (s : RemoteState)
    (h : ∃ g ∈ s.groups, pyStrip g.name = ASSIGNMENT_GROUP_NAME ∧
      ∃ a ∈ g.assignments, pyStrip a.name = ASSIGNMENT_NAME) :
    ∃ aid, start_assignment_flow flags f s =
      Except.error (delete_err_msg aid f.course_id) := by
  rcases scan_fail flags hdel f s.groups []
    s ([] ++ [ApiCall.lookupGroups f.course_id]) h with ⟨aid, he⟩
  rw [List.nil_append] at he
  exact ⟨aid, by simp [start_assignment_flow, look_up_ipe_assignment, hlk, he]⟩

/-- Absent group-creation response on the falsy branch: the flow raises
the group-creation error. -/
theorem flow_err_create_group (flags : ApiFlags) (hlk : flags.lookupOk = true)
    (hdel : flags.deleteOk = true) (hcg : flags.createGroupOk = false)
    (f : Flow) (s : RemoteState)
    (hfal : pyFalsy (lookupResultOf (matchingGroupIds s.groups)) = true) :
    start_assignment_flow flags f s =
      Except.error (create_group_err_msg f.course_id) := by
  rw [start_assignment_flow, look_up_ok flags hlk hdel]
  simp [hfal, create_assignment_group, hcg]

/-- Absent assignment-creation response: the flow raises the
assignment-creation error (on either branch). -/
theorem flow_err_create_assignment (flags : ApiFlags) (hlk : flags.lookupOk = true)
    (hdel : flags.deleteOk = true) (hcg : flags.createGroupOk = true)
    (hca : flags.createAssignmentOk = false) (f : Flow) (s : RemoteState) :
    start_assignment_flow flags f s =
      Except.error (create_assignment_err_msg f.course_id) := by
  rw [start_assignment_flow, look_up_ok flags hlk hdel]
  by_cases hfal : pyFalsy (lookupResultOf (matchingGroupIds s.groups)) = true
  · simp [hfal, create_assignment_group, hcg, create_assignment, hca]
  · simp [hfal, create_assignment, hca]

/-- Absent rubric-association response: the flow raises the rubric error
for the created assignment id (on either branch). -/
theorem flow_err_rubric (flags : ApiFlags) (hlk : flags.lookupOk = true)
    (hdel : flags.deleteOk = true) (hcg : flags.createGroupOk = true)
    (hca : flags.createAssignmentOk = true) (hrb : flags.rubricOk = false)
    (f : Flow) (s : RemoteState) :
    ∃ aid, start_assignment_flow flags f s =
      Except.error (rubric_err_msg f.rubric_id aid f.course_id) := by
  rw [start_assignment_flow, look_up_ok flags hlk hdel]
  by_cases hfal : pyFalsy (lookupResultOf (matchingGroupIds s.groups)) = true
  · exact ⟨(remIds (allMatchIds s.groups) s).nextId + 1, by
      simp [hfal, create_assignment_group, hcg, addGroup, create_assignment, hca,
        assign_ipe_rubrics, hrb, addAssignmentToGroup]⟩
  · exact ⟨(remIds (allMatchIds s.groups) s).nextId, by
      simp [hfal, create_assignment, hca, assign_ipe_rubrics, hrb, addAssignmentToGroup]⟩

theorem assignmentsAfterDeletes_nil (as : List Assignment) :
    assignmentsAfterDeletes [] as = as := by
  simp [assignmentsAfterDeletes]

theorem assignmentsAfterDeletes_cons (i : Int) (ids : List Int) (as : List Assignment) :
    assignmentsAfterDeletes ids (as.filter (fun a => !(a.id == i))) =
      assignmentsAfterDeletes (i :: ids) as := by
  rw [assignmentsAfterDeletes, assignmentsAfterDeletes, List.filter_filter]
  apply List.filter_congr
  intro a _
  by_cases h : a.id = i <;> simp [h, Bool.and_comm]

/-- `remIds` in closed form: every group keeps exactly the assignments
whose id was not deleted; nothing else of the state changes. -/
theorem remIds_eq_spec (ids : List Int) (s : RemoteState) :
    remIds ids s = remIdsSpec ids s := by
  induction ids generalizing s with
  | nil =>
    rw [remIds_nil, remIdsSpec]
    cases s with
    | mk gs n =>
      simp only [assignmentsAfterDeletes_nil]
      rw [List.map_id'' (fun g => rfl) gs]
  | cons i ids ih =>
    rw [remIds_cons, ih, remIdsSpec, remIdsSpec, removeAssignmentById]
    simp only [List.map_map]
    congr 1
    apply List.map_congr_left
    intro g _
    simp only [Function.comp]
    rw [assignmentsAfterDeletes_cons]

/-- In a list of groups with pairwise distinct ids, filtering by the id of
a member yields exactly that member. -/
theorem filter_id_singleton (l : List AssignmentGroup) (g0 : AssignmentGroup)
    (hnd : (l.map (fun g => g.id)).Nodup) (hmem : g0 ∈ l) :
    l.filter (fun g => g.id == g0.id) = [g0] := by
  induction l with
  | nil => cases hmem
  | cons g t ih =>
    rw [List.map_cons, List.nodup_cons] at hnd
    rcases List.mem_cons.mp hmem with h | h
    · subst h
      have ht : t.filter (fun g => g.id == g0.id) = [] := by
        rw [List.filter_eq_nil_iff]
        intro a ha hba
        exact hnd.1 (List.mem_map.mpr ⟨a, ha, by simpa using hba.symm⟩)
      simp [List.filter_cons, ht]
    · have hgne : (g.id == g0.id) = false := by
        rw [beq_eq_false_iff_ne]
        intro he
        exact hnd.1 (List.mem_map.mpr ⟨g0, h, he.symm⟩)
      simp [List.filter_cons, hgne, ih hnd.2 h]

/-- Every matching nested assignment of a matching group has its id in the
deletion list. -/
theorem mem_allMatchIds (gs : List AssignmentGroup) (g : AssignmentGroup)
    (a : Assignment) (hg : g ∈ gs) (hgname : pyStrip g.name = ASSIGNMENT_GROUP_NAME)
    (ha : a ∈ g.assignments) (haname : pyStrip a.name = ASSIGNMENT_NAME) :
    a.id ∈ allMatchIds gs := by
  rw [allMatchIds]
  rw [List.mem_flatMap]
  refine ⟨g, ?_, ?_⟩
  · rw [matchingGroups, List.mem_filter]
    exact ⟨hg, by simp [hgname]⟩
  · apply List.mem_map.mpr
    refine ⟨a, ?_, rfl⟩
    rw [matchingAssignments, List.mem_filter]
    exact ⟨ha, by simp [haname]⟩

/-- After the deletions of the scan, a matching group of the listing holds
no assignment with the configured name. -/
theorem count_after_deletes (gs : List AssignmentGroup) (g : AssignmentGroup)
    (hg : g ∈ gs) (hn : pyStrip g.name = ASSIGNMENT_GROUP_NAME) :
    matchingAssignmentCount (assignmentsAfterDeletes (allMatchIds gs) g.assignments) = 0 := by
  rw [matchingAssignmentCount, List.length_eq_zero, matchingAssignments,
    List.filter_eq_nil_iff]
  intro a ha hbeq
  rw [assignmentsAfterDeletes, List.mem_filter] at ha
  obtain ⟨hmem, hkeep⟩ := ha
  have hname : pyStrip a.name = ASSIGNMENT_NAME := by simpa using hbeq
  have hid : a.id ∈ allMatchIds gs := mem_allMatchIds gs g a hg hn hmem hname
  simp [hid] at hkeep

theorem matchingAssignmentCount_append (xs ys : List Assignment) :
    matchingAssignmentCount (xs ++ ys) =
      matchingAssignmentCount xs + matchingAssignmentCount ys := by
  simp [matchingAssignmentCount, matchingAssignments, List.filter_append]

/-- Filtering by id commutes with an id-preserving per-group map. -/
theorem filter_id_map (l : List AssignmentGroup) (gid : Int)
    (G : AssignmentGroup → AssignmentGroup) (hG : ∀ g, (G g).id = g.id) :
    (l.map G).filter (fun g => g.id == gid) =
      (l.filter (fun g => g.id == gid)).map G := by
  rw [List.filter_map]
  congr 1
  apply List.filter_congr
  intro g _
  simp [Function.comp, hG]

/-- No group survives an id filter above every id of the list. -/
theorem filter_id_nil_of_lt (l : List AssignmentGroup) (n : Int)
    (h : ∀ g ∈ l, g.id < n) : l.filter (fun g => g.id == n) = [] := by
  rw [List.filter_eq_nil_iff]
  intro g hg hbeq
  have h1 := h g hg
  have h2 : g.id = n := by simpa using hbeq
  omega

/-- Counting matching assignments through an id-preserving per-group map. -/
theorem matchCountIn_of_map (l : List AssignmentGroup) (n gid : Int)
    (G : AssignmentGroup → AssignmentGroup) (hG : ∀ g, (G g).id = g.id) :
    matchCountIn { groups := l.map G, nextId := n } gid =
      ((l.filter (fun g => g.id == gid)).map
        (fun g => matchingAssignmentCount (G g).assignments)).sum := by
  rw [matchCountIn]
  rw [show ({ groups := l.map G, nextId := n } : RemoteState).groups = l.map G from rfl]
  rw [filter_id_map l gid G hG, List.map_map]
  rfl

/-- Found-group branch: after the deletions, inserting the fresh assignment
into the found group leaves exactly one matching assignment there. -/
theorem matchCountIn_found (s : RemoteState) (g0 : AssignmentGroup)
    (hnd : (s.groups.map (fun g => g.id)).Nodup)
    (hmem : g0 ∈ s.groups) (hname : pyStrip g0.name = ASSIGNMENT_GROUP_NAME) :
    matchCountIn (addAssignmentToGroup (assignment_payload_for g0.id)
      (remIds (allMatchIds s.groups) s)).1 g0.id = 1 := by
  rw [remIds_eq_spec, remIdsSpec, addAssignmentToGroup]
  simp only [assignment_payload_for, List.map_map]
  rw [matchCountIn_of_map _ _ _ _ (fun g => by
    by_cases h : (({ g with assignments := assignmentsAfterDeletes (allMatchIds s.groups) g.assignments } : AssignmentGroup).id == g0.id) = true <;>
      simp [Function.comp, h])]
  rw [filter_id_singleton s.groups g0 hnd hmem]
  simp only [Function.comp, List.map_cons, List.map_nil, List.sum_cons, List.sum_nil]
  rw [if_pos (by simp)]
  simp only []
  rw [matchingAssignmentCount_append, count_after_deletes s.groups g0 hmem hname]
  simp [matchingAssignmentCount, matchingAssignments, pyStrip_assignment_name]

/-- Fresh-group branch: when every existing group id is below the id
counter, the freshly created group ends with exactly one matching
assignment. -/
theorem matchCountIn_fresh (s : RemoteState)
    (hlt : ∀ g ∈ s.groups, g.id < s.nextId) :
    matchCountIn (addAssignmentToGroup (assignment_payload_for s.nextId)
      (addGroup ASSIGNMENT_GROUP_NAME (remIds (allMatchIds s.groups) s)).1).1 s.nextId = 1 := by
  rw [remIds_eq_spec, remIdsSpec, addGroup, addAssignmentToGroup]
  simp only [assignment_payload_for]
  rw [matchCountIn_of_map _ _ _ _ (fun g => by
    by_cases h : (g.id == s.nextId) = true <;> simp [h])]
  rw [List.filter_append,
    filter_id_map s.groups s.nextId
      (fun g => { g with assignments := assignmentsAfterDeletes (allMatchIds s.groups) g.assignments })
      (fun _ => rfl),
    filter_id_nil_of_lt s.groups s.nextId hlt]
  simp [matchingAssignmentCount, matchingAssignments, pyStrip_assignment_name]

/-- A nonempty matching-id list comes from a matching member group. -/
theorem matchingGroupIds_cons_elim (gs : List AssignmentGroup) (i : Int)
    (rest : List Int) (h : matchingGroupIds gs = i :: rest) :
    ∃ g0, g0 ∈ gs ∧ pyStrip g0.name = ASSIGNMENT_GROUP_NAME ∧ g0.id = i := by
  rw [matchingGroupIds] at h
  cases hm : matchingGroups gs with
  | nil => rw [hm] at h; simp at h
  | cons g0 gr =>
    rw [hm] at h
    simp only [List.map_cons, List.cons.injEq] at h
    have hg0 : g0 ∈ matchingGroups gs := by
      rw [hm]; exact List.mem_cons_self g0 gr
    rw [matchingGroups, List.mem_filter] at hg0
    exact ⟨g0, hg0.1, by simpa using hg0.2, h.1⟩

/-- The retry loop makes at most `budget` further attempts. -/
theorem retryLoop_made_le (net : Nat → Response) (budget made : Nat) :
    (retryLoop net budget made).2 ≤ made + budget := by
  induction budget generalizing made with
  | zero => simp [retryLoop]
  | succ b ih =>
    rw [retryLoop]
    by_cases h : check_if_response_successful (net made) = true
    · simp only [h, if_true]
      omega
    · rw [if_neg h]
      have := ih (made + 1)
      omega

/-- When every attempted response is unsuccessful, the retry loop yields
absence. -/
theorem retryLoop_none (net : Nat → Response) (budget : Nat) :
    ∀ made : Nat,
      (∀ i, made ≤ i → i < made + budget →
        check_if_response_successful (net i) = false) →
      (retryLoop net budget made).1 = none := by
  induction budget with
  | zero => intro made _; rfl
  | succ b ih =>
    intro made h
    rw [retryLoop]
    have h0 : check_if_response_successful (net made) = false :=
      h made (Nat.le_refl made) (by omega)
    simp only [h0, Bool.false_eq_true, if_false]
    exact ih (made + 1) (fun i hi1 hi2 => h i (by omega) (by omega))

/-! # Claim theorems -/

/-- C1: the client's success classification returns true if and only if the
response body is syntactically valid parseable JSON — it equals the JSON
validity of the body for every status code, so a 200 response and a 400
response with valid JSON bodies are both classified successful, and a
response with an unparseable body is classified unsuccessful regardless of
its status code. -/
theorem C1_success_iff_parseable :
    (∀ (status : Nat) (text : String),
      check_if_response_successful { status_code := status, text := text } =
        json_loads_ok text) ∧
    check_if_response_successful { status_code := 200, text := valid_success_body } = true ∧
    check_if_response_successful { status_code := 400, text := valid_failure_body } = true ∧
    (∀ status : Nat,
      check_if_response_successful { status_code := status, text := invalid_json_body } = false) :=
  ⟨fun _ _ => rfl, by decide, by decide,
   fun _ => (by decide : json_loads_ok invalid_json_body = false)⟩

/-- C2 (documents the code bug): the batch loop's per-row call raises a
TypeError for every nonempty row count and every choice of per-course
workflow outcomes — the source lambda passes (course, rubrics_data) to
start_competencies_assigning_process, declared with one course parameter —
so the loop aborts at its first row instead of continuing; yet the method
as declared does catch and log workflow errors, which is the claimed
(intended) behaviour. -/
theorem C2_batch_loop_aborts :
    ∀ (flowOutcomes : Nat → Except String Int) (nRows : Nat),
      (course_loop flowOutcomes (nRows + 1)).1 = ProcResult.raised type_error_msg ∧
      (∀ e : String,
        start_competencies_assigning_process (Except.error e) = [OEvent.logError e]) :=
  fun _ _ => ⟨rfl, fun _ => rfl⟩

/-- C3 (documents the code bug): a cleaning exception exits with status 1
before anything else, as claimed; but when cleaning succeeds the process
still always exits with status 1 with only the NameError log line — the
name IPERubricDataMapping used by getting_rubrics is never imported or
defined — so the rubric is never fetched (no rubric-fetch event) and no
course row is ever processed (no course-loop event), also on the concrete
demo spreadsheet. -/
theorem C3_rubric_never_fetched :
    (∀ (o : Orchestrator) (fos : Nat → Except String Int) (e : String),
      start_composing_process (some e) fos o =
        (ProcResult.exited 1,
          [OEvent.logError ("Error in clean_up_ipe_dataframe: " ++ e)])) ∧
    (∀ (o : Orchestrator) (fos : Nat → Except String Int),
      start_composing_process none fos o =
        (ProcResult.exited 1,
          [OEvent.logError ("Error in getting_rubrics: " ++ name_error_msg)])) ∧
    (∀ fos : Nat → Except String Int,
      start_composing_process none fos demoOrch =
        (ProcResult.exited 1,
          [OEvent.logError ("Error in getting_rubrics: " ++ name_error_msg)])) :=
  ⟨fun _ _ _ => rfl, fun _ _ => rfl, fun _ => rfl⟩

/-- C4: the lookup returns the first id of the name-matching groups when
one exists and the empty-list signal otherwise, and on the empty signal
the flow creates a new group. -/
theorem C4_lookup_first_or_not_found :
    ∀ (f : Flow) (s : RemoteState),
      look_up_ipe_assignment allOk f s [] =
        Except.ok (lookupResultOf (matchingGroupIds s.groups),
          remIds (allMatchIds s.groups) s,
          ApiCall.lookupGroups f.course_id :: delete_calls_for f s.groups) ∧
      (matchingGroupIds s.groups = [] →
        ∃ aid s2 tr, start_assignment_flow allOk f s = Except.ok (aid, s2, tr) ∧
          ApiCall.createGroup f.course_id ASSIGNMENT_GROUP_NAME 2000 ∈ tr) := by
  intro f s
  refine ⟨look_up_ok allOk rfl rfl f s, ?_⟩
  intro hL
  refine ⟨s.nextId + 1, _, _,
    flow_ok_falsy allOk rfl rfl rfl rfl rfl f s (by rw [hL]; rfl), ?_⟩
  simp

/-- C5: in a well-formed remote state the flow deletes exactly the
name-matching nested assignments of the name-matching groups (as recorded
DELETE calls placed before every later call), issues the assignment
creation afterwards, and leaves exactly one assignment of the configured
name in the group that received the fresh assignment. -/
theorem C5_deletes_then_single_assignment :
    ∀ (f : Flow) (s : RemoteState),
      (s.groups.map (fun g => g.id)).Nodup →
      (∀ g ∈ s.groups, g.id < s.nextId) →
      ∃ aid s2 gid rest,
        start_assignment_flow allOk f s =
          Except.ok (aid, s2,
            ApiCall.lookupGroups f.course_id :: (delete_calls_for f s.groups ++ rest)) ∧
        rest.all (fun c => !(isDeleteCall c)) = true ∧
        ApiCall.createAssignment f.course_id (assignment_payload_for gid) ∈ rest ∧
        matchCountIn s2 gid = 1 := by
  intro f s hnd hlt
  cases hL : matchingGroupIds s.groups with
  | nil =>
    refine ⟨_, _, s.nextId, _,
      flow_ok_falsy allOk rfl rfl rfl rfl rfl f s (by rw [hL]; rfl), ?_, ?_, ?_⟩
    · simp [isDeleteCall]
    · simp
    · exact matchCountIn_fresh s hlt
  | cons i rest0 =>
    by_cases hi : (i == 0) = true
    · refine ⟨_, _, s.nextId, _,
        flow_ok_falsy allOk rfl rfl rfl rfl rfl f s
          (by rw [hL]; simpa [lookupResultOf, pyFalsy] using hi), ?_, ?_, ?_⟩
      · simp [isDeleteCall]
      · simp
      · exact matchCountIn_fresh s hlt
    · obtain ⟨g0, hg0mem, hg0name, hg0id⟩ :=
        matchingGroupIds_cons_elim s.groups i rest0 hL
      refine ⟨_, _, i, _,
        flow_ok_found allOk rfl rfl rfl rfl f s i rest0 hL
          (by simpa using hi), ?_, ?_, ?_⟩
      · simp [isDeleteCall]
      · simp
      · have hcount := matchCountIn_found s g0 hnd hg0mem hg0name
        rw [hg0id] at hcount
        exact hcount

/-- C6: for a course with no name-matching group, a successful run issues
exactly the lookup followed by three creation calls, in order: the group
(fixed name, position 2000), the assignment inside that group, and the
rubric association for that assignment. -/
theorem C6_three_creations_in_order :
    ∀ (f : Flow) (s : RemoteState),
      (∀ g ∈ s.groups, ¬ pyStrip g.name = ASSIGNMENT_GROUP_NAME) →
      ∃ s2, start_assignment_flow allOk f s =
        Except.ok (s.nextId + 1, s2,
          [ApiCall.lookupGroups f.course_id,
           ApiCall.createGroup f.course_id ASSIGNMENT_GROUP_NAME 2000,
           ApiCall.createAssignment f.course_id (assignment_payload_for s.nextId),
           ApiCall.createRubricAssociation f.course_id
             (rubric_payload_for f (s.nextId + 1))]) := by
  intro f s hno
  have hmg : matchingGroups s.groups = [] := by
    rw [matchingGroups, List.filter_eq_nil_iff]
    intro g hg hbeq
    exact hno g hg (by simpa using hbeq)
  have hL : matchingGroupIds s.groups = [] := by
    rw [matchingGroupIds, hmg]; rfl
  have hdc : delete_calls_for f s.groups = [] := by
    rw [delete_calls_for, hmg]; rfl
  have hflow := flow_ok_falsy allOk rfl rfl rfl rfl rfl f s (by rw [hL]; rfl)
  rw [hdc, List.nil_append] at hflow
  exact ⟨_, hflow⟩

/-- C7: for each workflow step, when the client returns absence for that
step's call the flow raises the step's error message — which carries the
course id and, where applicable, the assignment or rubric id — and the
error propagates out of start_assignment_flow. -/
theorem C7_absence_raises_with_context :
    (∀ (flags : ApiFlags) (f : Flow) (s : RemoteState), flags.lookupOk = false →
      start_assignment_flow flags f s = Except.error (lookup_err_msg f.course_id)) ∧
    (∀ (flags : ApiFlags) (f : Flow) (s : RemoteState),
      flags.lookupOk = true → flags.deleteOk = false →
      (∃ g ∈ s.groups, pyStrip g.name = ASSIGNMENT_GROUP_NAME ∧
        ∃ a ∈ g.assignments, pyStrip a.name = ASSIGNMENT_NAME) →
      ∃ aid, start_assignment_flow flags f s =
        Except.error (delete_err_msg aid f.course_id)) ∧
    (∀ (flags : ApiFlags) (f : Flow) (s : RemoteState),
      flags.lookupOk = true → flags.deleteOk = true → flags.createGroupOk = false →
      pyFalsy (lookupResultOf (matchingGroupIds s.groups)) = true →
      start_assignment_flow flags f s =
        Except.error (create_group_err_msg f.course_id)) ∧
    (∀ (flags : ApiFlags) (f : Flow) (s : RemoteState),
      flags.lookupOk = true → flags.deleteOk = true → flags.createGroupOk = true →
      flags.createAssignmentOk = false →
      start_assignment_flow flags f s =
        Except.error (create_assignment_err_msg f.course_id)) ∧
    (∀ (flags : ApiFlags) (f : Flow) (s : RemoteState),
      flags.lookupOk = true → flags.deleteOk = true → flags.createGroupOk = true →
      flags.createAssignmentOk = true → flags.rubricOk = false →
      ∃ aid, start_assignment_flow flags f s =
        Except.error (rubric_err_msg f.rubric_id aid f.course_id)) :=
  ⟨fun flags f s hlk => flow_err_lookup flags hlk f s,
   fun flags f s hlk hdel h => flow_err_delete flags hlk hdel f s h,
   fun flags f s hlk hdel hcg hfal => flow_err_create_group flags hlk hdel hcg f s hfal,
   fun flags f s hlk hdel hcg hca => flow_err_create_assignment flags hlk hdel hcg hca f s,
   fun flags f s hlk hdel hcg hca hrb => flow_err_rubric flags hlk hdel hcg hca hrb f s⟩

/-- C8: api_call_with_retries makes at most the fixed number of attempts,
and when every attempt is classified unsuccessful it returns absence
rather than raising. -/
theorem C8_retries_bounded_then_absent :
    ∀ (maxAttempts : Nat) (net : Nat → Response),
      (api_call_with_retries maxAttempts net).2 ≤ maxAttempts ∧
      ((∀ i, i < maxAttempts → check_if_response_successful (net i) = false) →
        (api_call_with_retries maxAttempts net).1 = none) := by
  intro maxAttempts net
  constructor
  · have h := retryLoop_made_le net maxAttempts 0
    simpa [api_call_with_retries] using h
  · intro h
    apply retryLoop_none
    intro i hi0 hi1
    exact h i (by omega)

/-- C9: the flow tests the truthiness, not the presence, of the lookup
result: when the first matching group id is 0 it still creates a fresh
group and creates the assignment inside the freshly created group. -/
theorem C9_zero_id_truthiness :
    ∀ (f : Flow) (s : RemoteState),
      (matchingGroupIds s.groups).head? = some 0 →
      ∃ s2 tr, start_assignment_flow allOk f s =
          Except.ok (s.nextId + 1, s2, tr) ∧
        ApiCall.createGroup f.course_id ASSIGNMENT_GROUP_NAME 2000 ∈ tr ∧
        ApiCall.createAssignment f.course_id (assignment_payload_for s.nextId) ∈ tr := by
  intro f s h
  have hfal : pyFalsy (lookupResultOf (matchingGroupIds s.groups)) = true := by
    cases hL : matchingGroupIds s.groups with
    | nil => rfl
    | cons i r =>
      rw [hL] at h
      simp only [List.head?_cons, Option.some.injEq] at h
      subst h
      rfl
  refine ⟨_, _, flow_ok_falsy allOk rfl rfl rfl rfl rfl f s hfal, ?_, ?_⟩ <;> simp

/-- C10: cleaning strips the original dataframe's column labels in place,
leaves its rows unchanged, stores the filtered rows only in
filter_df_course_ids, and modifies no other orchestrator field. -/
theorem C10_clean_frame_effect :
    ∀ (o : Orchestrator),
      clean_up_ipe_dataframe none o =
        (ProcResult.ok
          { o with
            orginal_df :=
              { columns := df_columns_strip o.orginal_df.columns,
                rows := o.orginal_df.rows },
            filter_df_course_ids :=
              df_remove_non_course_id
                { columns := df_columns_strip o.orginal_df.columns,
                  rows := o.orginal_df.rows } }, []) :=
  fun _ => rfl

/-! # Witnesses -/

/-- C4 witness: the claim instantiated at course 111 over a state with no
name-matching group. -/
theorem C4_witness :
    (look_up_ipe_assignment allOk demoFlow plainState [] =
      Except.ok (lookupResultOf (matchingGroupIds plainState.groups),
        remIds (allMatchIds plainState.groups) plainState,
        ApiCall.lookupGroups demoFlow.course_id ::
          delete_calls_for demoFlow plainState.groups)) ∧
    (∃ aid s2 tr, start_assignment_flow allOk demoFlow plainState =
        Except.ok (aid, s2, tr) ∧
      ApiCall.createGroup demoFlow.course_id ASSIGNMENT_GROUP_NAME 2000 ∈ tr) :=
  ⟨(C4_lookup_first_or_not_found demoFlow plainState).1,
   (C4_lookup_first_or_not_found demoFlow plainState).2 (by decide)⟩

/-- C5 witness: the claim instantiated at course 111 over the demo state
holding a stale copy of the assignment. -/
theorem C5_witness :
    ∃ aid s2 gid rest,
      start_assignment_flow allOk demoFlow demoState =
        Except.ok (aid, s2,
          ApiCall.lookupGroups demoFlow.course_id ::
            (delete_calls_for demoFlow demoState.groups ++ rest)) ∧
      rest.all (fun c => !(isDeleteCall c)) = true ∧
      ApiCall.createAssignment demoFlow.course_id (assignment_payload_for gid) ∈ rest ∧
      matchCountIn s2 gid = 1 :=
  C5_deletes_then_single_assignment demoFlow demoState (by decide) (by decide)

/-- C6 witness: the claim instantiated at course 111 over a state with no
name-matching group. -/
theorem C6_witness :
    ∃ s2, start_assignment_flow allOk demoFlow plainState =
      Except.ok (plainState.nextId + 1, s2,
        [ApiCall.lookupGroups demoFlow.course_id,
         ApiCall.createGroup demoFlow.course_id ASSIGNMENT_GROUP_NAME 2000,
         ApiCall.createAssignment demoFlow.course_id
           (assignment_payload_for plainState.nextId),
         ApiCall.createRubricAssociation demoFlow.course_id
           (rubric_payload_for demoFlow (plainState.nextId + 1))]) :=
  C6_three_creations_in_order demoFlow plainState (by decide)

/-- C7 witness: each step's absence case instantiated at course 111. -/
theorem C7_witness :
    start_assignment_flow flagsNoLookup demoFlow demoState =
      Except.error (lookup_err_msg 111) ∧
    (∃ aid, start_assignment_flow flagsNoDelete demoFlow demoState =
      Except.error (delete_err_msg aid 111)) ∧
    start_assignment_flow flagsNoCreateGroup demoFlow plainState =
      Except.error (create_group_err_msg 111) ∧
    start_assignment_flow flagsNoCreateAssignment demoFlow demoState =
      Except.error (create_assignment_err_msg 111) ∧
    (∃ aid, start_assignment_flow flagsNoRubric demoFlow demoState =
      Except.error (rubric_err_msg 7 aid 111)) :=
  ⟨C7_absence_raises_with_context.1 flagsNoLookup demoFlow demoState rfl,
   C7_absence_raises_with_context.2.1 flagsNoDelete demoFlow demoState rfl rfl (by decide),
   C7_absence_raises_with_context.2.2.1 flagsNoCreateGroup demoFlow plainState
     rfl rfl rfl (by decide),
   C7_absence_raises_with_context.2.2.2.1 flagsNoCreateAssignment demoFlow demoState
     rfl rfl rfl rfl,
   C7_absence_raises_with_context.2.2.2.2 flagsNoRubric demoFlow demoState
     rfl rfl rfl rfl rfl⟩

/-- C8 witness: two attempts over a network that always answers with an
unparseable body. -/
theorem C8_witness :
    (api_call_with_retries 2 badNet).2 ≤ 2 ∧
    (api_call_with_retries 2 badNet).1 = none :=
  ⟨(C8_retries_bounded_then_absent 2 badNet).1,
   (C8_retries_bounded_then_absent 2 badNet).2
     (fun _ _ => (by decide : json_loads_ok invalid_json_body = false))⟩

/-- C9 witness: the claim instantiated at course 111 over a state whose
only matching group has id 0. -/
theorem C9_witness :
    ∃ s2 tr, start_assignment_flow allOk demoFlow zeroIdState =
        Except.ok (zeroIdState.nextId + 1, s2, tr) ∧
      ApiCall.createGroup demoFlow.course_id ASSIGNMENT_GROUP_NAME 2000 ∈ tr ∧
      ApiCall.createAssignment demoFlow.course_id
        (assignment_payload_for zeroIdState.nextId) ∈ tr :=
  C9_zero_id_truthiness demoFlow zeroIdState (by decide)

end IPE
